import Mathlib

set_option maxHeartbeats 1000000

/-!
Verification of `scripts/parse_config.py`, a command-line YAML configuration
value resolver.  The script loads a YAML file (recovering from any load
failure by substituting an empty document) and prints the resolved value of
one of four recognized keys to standard output, or exits with code 1 on an
unknown key.

The embedding models:
* parsed YAML values (`YamlVal`);
* Python truthiness (`pyTruthy`), used both by `yaml.safe_load(f) or {}`
  and by `'true' if dry_run else 'false'`;
* Python `str()` / `repr()` conversion (`pyStr`, `pyRepr`), used by `print`;
* `str.split(',')` and `','.join(...)` (`pySplitComma`, `pyJoinComma`);
* `dict.get` on an arbitrary value (`pyGet`), which raises when the
  receiver is not a mapping;
* the whole program run (`mainRun`, `pmain`) as an `Outcome`: the list of
  newline-terminated lines printed to stdout, the lines printed to stderr,
  and how the process ended (exit 0, exit 1, or an uncaught exception).
-/

namespace ParseConfig

/-- A value in a parsed YAML document, as produced by `yaml.safe_load`:
`None`, booleans, integers, strings, sequences, and mappings with string
keys (the shapes the configuration format uses). -/
inductive YamlVal where
  | null
  | bool (b : Bool)
  | int (n : Int)
  | str (s : String)
  | list (xs : List YamlVal)
  | map (kvs : List (String × YamlVal))

/-- Python truthiness of a parsed value: `None`, `False`, `0`, `""`, `[]`
and `\x7b\x7d` are falsy, everything else is truthy. -/
def pyTruthy : YamlVal → Bool
  | .null => false
  | .bool b => b
  | .int n => n != 0
  | .str s => s != ""
  | .list xs => !xs.isEmpty
  | .map kvs => !kvs.isEmpty

/-- Whether the value is a Python `str` (the `isinstance(v, str)` test). -/
def YamlVal.isStr : YamlVal → Bool
  | .str _ => true
  | _ => false

/-- Whether the value is a Python `list` (the `isinstance(v, list)` test). -/
def YamlVal.isList : YamlVal → Bool
  | .list _ => true
  | _ => false

/-- Whether the value is a Python `dict`. -/
def YamlVal.isMap : YamlVal → Bool
  | .map _ => true
  | _ => false

/-- Lowercase hexadecimal digit for `n < 16`. -/
def hexDigit (n : Nat) : Char :=
  if n < 10 then Char.ofNat (48 + n) else Char.ofNat (87 + n)

/-- The quote character Python `repr` picks for a string: a single quote,
unless the string contains a single quote and no double quote. -/
def pyQuote (s : String) : Char :=
  if s.data.contains (Char.ofNat 39) && !(s.data.contains (Char.ofNat 34)) then
    Char.ofNat 34
  else
    Char.ofNat 39

/-- Escape of one character inside a Python string `repr` with quote `q`:
backslash and the quote are backslash-escaped, newline, carriage return and
tab use their mnemonic escapes, other ASCII control characters use `\xNN`
(printable characters above 127 are kept literal). -/
def escChar (q : Char) (c : Char) : String :=
  if c = Char.ofNat 92 then "\\\\"
  else if c = q then String.mk [Char.ofNat 92, q]
  else if c = Char.ofNat 10 then "\\n"
  else if c = Char.ofNat 13 then "\\r"
  else if c = Char.ofNat 9 then "\\t"
  else if c.toNat < 32 || c.toNat == 127 then
    "\\x" ++ String.mk [hexDigit (c.toNat / 16), hexDigit (c.toNat % 16)]
  else String.singleton c

/-- Python `repr` of a string: the chosen quote around the escaped body. -/
def pyReprStr (s : String) : String :=
  String.singleton (pyQuote s) ++ String.join (s.data.map (escChar (pyQuote s)))
    ++ String.singleton (pyQuote s)

/-- Joins rendered elements with `", "`, as inside Python container `repr`. -/
def joinCommaSpace : List String → String
  | [] => ""
  | [x] => x
  | x :: xs => x ++ ", " ++ joinCommaSpace xs

mutual

/-- Python `repr` of a parsed value. -/
def pyRepr : YamlVal → String
  | .null => "None"
  | .bool true => "True"
  | .bool false => "False"
  | .int n => toString n
  | .str s => pyReprStr s
  | .list xs => "[" ++ joinCommaSpace (pyReprL xs) ++ "]"
  | .map kvs => "\x7b" ++ joinCommaSpace (pyReprKV kvs) ++ "\x7d"

/-- The `repr`s of the elements of a list value. -/
def pyReprL : List YamlVal → List String
  | [] => []
  | v :: vs => pyRepr v :: pyReprL vs

/-- The rendered `key: value` entries of a mapping value. -/
def pyReprKV : List (String × YamlVal) → List String
  | [] => []
  | (k, v) :: kvs => (pyReprStr k ++ ": " ++ pyRepr v) :: pyReprKV kvs

end

/-- Python `str()` of a parsed value, as used by `print`: a string prints
unchanged; every other value prints as its `repr`. -/
def pyStr : YamlVal → String
  | .str s => s
  | v => pyRepr v

/-- Splitting a character list at every occurrence of `sep`, keeping empty
pieces, as Python `str.split(sep)` with a one-character separator. -/
def splitChars (sep : Char) : List Char → List (List Char)
  | [] => [[]]
  | c :: cs =>
    if c = sep then [] :: splitChars sep cs
    else
      match splitChars sep cs with
      | [] => [[c]]
      | h :: t => (c :: h) :: t

/-- Joining character-list pieces with `sep` between consecutive pieces. -/
def joinChars (sep : Char) : List (List Char) → List Char
  | [] => []
  | [l] => l
  | l :: ls => l ++ sep :: joinChars sep ls

theorem splitChars_ne_nil (sep : Char) (cs : List Char) :
    splitChars sep cs ≠ [] := by
  cases cs with
  | nil => simp [splitChars]
  | cons c cs =>
    simp only [splitChars]
    split
    · simp
    · split <;> simp

theorem joinChars_splitChars (sep : Char) (cs : List Char) :
    joinChars sep (splitChars sep cs) = cs := by
  induction cs with
  | nil => rfl
  | cons c cs ih =>
    simp only [splitChars]
    by_cases hc : c = sep
    · rw [if_pos hc]
      obtain ⟨h, t, ht⟩ : ∃ h t, splitChars sep cs = h :: t := by
        cases hs : splitChars sep cs with
        | nil => exact absurd hs (splitChars_ne_nil sep cs)
        | cons h t => exact ⟨h, t, rfl⟩
      rw [ht] at ih ⊢
      rw [hc]
      simpa [joinChars] using ih
    · rw [if_neg hc]
      obtain ⟨h, t, ht⟩ : ∃ h t, splitChars sep cs = h :: t := by
        cases hs : splitChars sep cs with
        | nil => exact absurd hs (splitChars_ne_nil sep cs)
        | cons h t => exact ⟨h, t, rfl⟩
      rw [ht] at ih ⊢
      cases t with
      | nil => simpa [joinChars] using ih
      | cons t1 ts => simpa [joinChars] using ih

/-- Python `s.split(',')` on a string. -/
def pySplitComma (s : String) : List String :=
  (splitChars ',' s.data).map String.mk

/-- Python `','.join(xs)` on a list of strings. -/
def pyJoinComma (xs : List String) : String :=
  String.mk (joinChars ',' (xs.map String.data))

theorem pyJoinComma_pySplitComma (s : String) :
    pyJoinComma (pySplitComma s) = s := by
  obtain ⟨data⟩ := s
  simp only [pySplitComma, pyJoinComma, List.map_map]
  have hmap : String.data ∘ String.mk = id := rfl
  rw [hmap, List.map_id, joinChars_splitChars]

/-- Extracting the strings of a list value, as Python `','.join(envs)`
inspects the elements: succeeds with the list of strings when every element
is a `str`, and raises `TypeError` (modelled as `.error ()`) when some
element is not a `str`. -/
def asStrings : List YamlVal → Except Unit (List String)
  | [] => .ok []
  | .str s :: vs =>
    match asStrings vs with
    | .ok ss => .ok (s :: ss)
    | .error e => .error e
  | _ :: _ => .error ()

/-- Python `','.join(envs)` on a list value: the comma-join of its elements
when they are all strings, and a raised `TypeError` otherwise. -/
def pyJoinCommaVals (xs : List YamlVal) : Except Unit String :=
  match asStrings xs with
  | .ok ss => .ok (pyJoinComma ss)
  | .error e => .error e

/-- What the attempt to open and parse the configuration file produced:
either a failure raised before a document existed (file missing, unreadable,
or malformed YAML, with the exception text), or a successfully parsed
top-level value (`.null` for an empty document). -/
inductive LoadInput where
  | readError (msg : String)
  | parsed (v : YamlVal)

/-- The `load_config` function: returns the parsed document, with
`yaml.safe_load(f) or \x7b\x7d` replacing any falsy result by the empty
mapping; on any exception it prints a diagnostic to stderr and returns the
empty mapping.  The second component is the list of stderr lines. -/
def load_config : LoadInput → YamlVal × List String
  | .readError msg => (.map [], ["Error loading config: " ++ msg])
  | .parsed v => (if pyTruthy v then v else .map [], [])

/-- How the process ended: exit code 0, exit code 1, or an uncaught
exception. -/
inductive Exit where
  | success
  | failure
  | crash
deriving DecidableEq

/-- Observable behavior of one program run: the newline-terminated lines
printed to standard output, the lines printed to standard error, and how
the process ended. -/
structure Outcome where
  stdout : List String
  stderr : List String
  exit : Exit
deriving DecidableEq

/-- Python `config.get(k, default)`: on a mapping, the value of the first
matching key or the default; on any non-mapping receiver the attribute
lookup of `.get` raises (modelled as `.error ()`). -/
def pyGet (config : YamlVal) (k : String) (default : YamlVal) :
    Except Unit YamlVal :=
  match config with
  | .map kvs => .ok ((List.lookup k kvs).getD default)
  | _ => .error ()

/-- The key-resolution part of `main` (lines 28-45 of the script), given the
already-loaded configuration value: the four recognized keys print one line
to stdout and succeed, an unknown key prints an empty line to stderr and
exits 1, and a raised exception crashes with no further output. -/
def resolveOut (config : YamlVal) (key : String) : Outcome :=
  if key = "enabledEnvironments" then
    match pyGet config "enabledEnvironments" (.str "dev,sit") with
    | .error _ => ⟨[], [], .crash⟩
    | .ok envs =>
      match envs with
      | .str s => ⟨[pyJoinComma (pySplitComma s)], [], .success⟩
      | .list xs =>
        match pyJoinCommaVals xs with
        | .ok out => ⟨[out], [], .success⟩
        | .error _ => ⟨[], [], .crash⟩
      | _ => ⟨["dev,sit"], [], .success⟩
  else if key = "notificationEmail" then
    match pyGet config "notificationEmail" (.str "") with
    | .error _ => ⟨[], [], .crash⟩
    | .ok v => ⟨[pyStr v], [], .success⟩
  else if key = "slackWebhook" then
    match pyGet config "slackWebhook" (.str "") with
    | .error _ => ⟨[], [], .crash⟩
    | .ok v => ⟨[pyStr v], [], .success⟩
  else if key = "dryRun" then
    match pyGet config "dryRun" (.bool false) with
    | .error _ => ⟨[], [], .crash⟩
    | .ok v => ⟨[if pyTruthy v then "true" else "false"], [], .success⟩
  else ⟨[], [""], .failure⟩

/-- The body of `main` after argument validation: load the configuration
(emitting any load diagnostic to stderr first), then resolve the key. -/
def mainRun (input : LoadInput) (key : String) : Outcome :=
  let p := load_config input
  ⟨(resolveOut p.1 key).stdout, p.2 ++ (resolveOut p.1 key).stderr,
    (resolveOut p.1 key).exit⟩

/-- The whole program: `sys.argv` (program name included) plus an oracle
giving, for each path, what opening and parsing that file produces.  With
an argument count other than 3 the program prints a usage message to stderr
and exits 1; otherwise it runs `mainRun` on the named file and key. -/
def pmain (world : String → LoadInput) (argv : List String) : Outcome :=
  match argv with
  | [_, cfg, key] => mainRun (world cfg) key
  | _ => ⟨[], ["Usage: parse_config.py <config_file> <key>"], .failure⟩

theorem load_parsed_map (kvs : List (String × YamlVal)) :
    load_config (.parsed (.map kvs)) = (.map kvs, []) := by
  cases kvs <;> rfl

theorem mainRun_parsed_map (kvs : List (String × YamlVal)) (key : String) :
    mainRun (.parsed (.map kvs)) key = resolveOut (.map kvs) key := by
  cases kvs <;> rfl

theorem asStrings_map_str (ss : List String) :
    asStrings (ss.map YamlVal.str) = .ok ss := by
  induction ss with
  | nil => rfl
  | cons s ss ih => simp [asStrings, ih]

theorem asStrings_error_of_mem (xs : List YamlVal) (x : YamlVal)
    (hx : x ∈ xs) (hs : x.isStr = false) : asStrings xs = .error () := by
  induction xs with
  | nil => cases hx
  | cons y ys ih =>
    cases hx with
    | head => cases x <;> simp_all [asStrings, YamlVal.isStr]
    | tail _ hmem =>
      cases y with
      | str s => simp [asStrings, ih hmem]
      | null => rfl
      | bool b => rfl
      | int n => rfl
      | list l => rfl
      | map m => rfl

theorem resolveOut_shape (config : YamlVal) (key : String) :
    ((resolveOut config key).stdout = [] ∧
      (resolveOut config key).exit ≠ .success) ∨
    ∃ v, (resolveOut config key).stdout = [v] ∧
      (resolveOut config key).exit = .success := by
  unfold resolveOut
  repeat' split
  all_goals simp

/-- C1, amended.  For the key `dryRun`, the script does not read the raw
value as a boolean: it applies the host language's truthiness.  For every
mapping document, the printed line is exactly the lowercase token `"true"`
when the value is present and truthy (a true boolean, a non-zero number, a
non-empty string, sequence or mapping) and exactly `"false"` otherwise
(key absent, or a falsy value), with exit code 0. -/
theorem c1_dryRun_truthiness (kvs : List (String × YamlVal)) :
    mainRun (.parsed (.map kvs)) "dryRun" =
      ⟨[if pyTruthy ((List.lookup "dryRun" kvs).getD (.bool false)) then
          "true" else "false"], [], .success⟩ := by
  rw [mainRun_parsed_map]
  rfl

/-- C1, counterexample to the claim as stated.  The document mapping
`dryRun` to the string `"yes"` — a non-boolean value, for which the claim
requires the output `"false"` — makes the script print `"true"`. -/
theorem c1_counterexample :
    (mainRun (.parsed (.map [("dryRun", YamlVal.str "yes")]))
      "dryRun").stdout = ["true"] ∧
    (YamlVal.str "yes").isStr = true ∧
    ["true"] ≠ (["false"] : List String) := by
  refine ⟨rfl, rfl, by decide⟩

/-- C2, amended.  For the keys `notificationEmail` and `slackWebhook`, a
string value is printed unchanged and the default `""` is produced when the
key is absent; but a present non-string value is not replaced by the
default: it is printed through the language's string conversion (`42`
prints as `"42"`, a null value prints as `"None"`). -/
theorem c2_email_webhook_strconv (kvs : List (String × YamlVal)) :
    mainRun (.parsed (.map kvs)) "notificationEmail" =
      ⟨[pyStr ((List.lookup "notificationEmail" kvs).getD (.str ""))],
        [], .success⟩ ∧
    mainRun (.parsed (.map kvs)) "slackWebhook" =
      ⟨[pyStr ((List.lookup "slackWebhook" kvs).getD (.str ""))],
        [], .success⟩ := by
  constructor <;> (rw [mainRun_parsed_map]; rfl)

/-- C2, counterexample to the claim as stated.  The document mapping
`notificationEmail` to the number `42` — a malformed (non-string) value,
for which the claim requires the output `""` — makes the script print
`"42"`. -/
theorem c2_counterexample :
    (mainRun (.parsed (.map [("notificationEmail", YamlVal.int 42)]))
      "notificationEmail").stdout = ["42"] ∧
    ["42"] ≠ ([""] : List String) := by
  refine ⟨rfl, by decide⟩

/-- C3 (confirmed).  For the key `enabledEnvironments`: when the document
maps it to a sequence of strings, the output is the elements joined with
commas; when it maps it to any shape other than a string or a sequence
(a number, mapping, boolean, or null), the output falls back to the
default `"dev,sit"`. -/
theorem c3_envs_sequence_and_other_shapes (kvs : List (String × YamlVal))
    (v : YamlVal) (h : List.lookup "enabledEnvironments" kvs = some v) :
    (∀ ss : List String, v = .list (ss.map YamlVal.str) →
      mainRun (.parsed (.map kvs)) "enabledEnvironments" =
        ⟨[pyJoinComma ss], [], .success⟩) ∧
    (v.isStr = false → v.isList = false →
      mainRun (.parsed (.map kvs)) "enabledEnvironments" =
        ⟨["dev,sit"], [], .success⟩) := by
  constructor
  · intro ss hss
    subst hss
    rw [mainRun_parsed_map]
    simp only [resolveOut, pyGet, h, Option.getD_some, pyJoinCommaVals,
      asStrings_map_str]
    rfl
  · intro h1 h2
    rw [mainRun_parsed_map]
    simp only [resolveOut, pyGet, h, Option.getD_some]
    cases v with
    | str s => simp [YamlVal.isStr] at h1
    | list xs => simp [YamlVal.isList] at h2
    | null => rfl
    | bool b => rfl
    | int n => rfl
    | map m => rfl

/-- C3, witness: the sequence `["prod", "uat"]` resolves to `prod,uat`. -/
theorem c3_witness :
    mainRun
      (.parsed (.map
        [("enabledEnvironments", YamlVal.list [.str "prod", .str "uat"])]))
      "enabledEnvironments" = ⟨["prod,uat"], [], .success⟩ := by
  have h := c3_envs_sequence_and_other_shapes
    [("enabledEnvironments", YamlVal.list [.str "prod", .str "uat"])]
    (.list [.str "prod", .str "uat"]) rfl
  have h1 := h.1 ["prod", "uat"] rfl
  rw [h1]
  rfl

/-- C4 (confirmed).  For the key `enabledEnvironments` with a string value:
splitting on commas and rejoining with commas is a literal passthrough, so
for every string `s` the output is exactly `s`, whitespace around entries
included. -/
theorem c4_envs_string_passthrough (s : String) :
    mainRun (.parsed (.map [("enabledEnvironments", YamlVal.str s)]))
      "enabledEnvironments" = ⟨[s], [], .success⟩ := by
  have h : mainRun (.parsed (.map [("enabledEnvironments", YamlVal.str s)]))
      "enabledEnvironments" =
      ⟨[pyJoinComma (pySplitComma s)], [], .success⟩ := rfl
  rw [h, pyJoinComma_pySplitComma]

/-- C5 (confirmed).  For every document containing none of the four
recognized keys, the four resolutions print the documented defaults
`"dev,sit"`, `""`, `""` and `"false"` respectively. -/
theorem c5_defaults_when_keys_absent (kvs : List (String × YamlVal))
    (h1 : List.lookup "enabledEnvironments" kvs = none)
    (h2 : List.lookup "notificationEmail" kvs = none)
    (h3 : List.lookup "slackWebhook" kvs = none)
    (h4 : List.lookup "dryRun" kvs = none) :
    mainRun (.parsed (.map kvs)) "enabledEnvironments" =
      ⟨["dev,sit"], [], .success⟩ ∧
    mainRun (.parsed (.map kvs)) "notificationEmail" =
      ⟨[""], [], .success⟩ ∧
    mainRun (.parsed (.map kvs)) "slackWebhook" = ⟨[""], [], .success⟩ ∧
    mainRun (.parsed (.map kvs)) "dryRun" = ⟨["false"], [], .success⟩ := by
  refine ⟨?_, ?_, ?_, ?_⟩ <;> rw [mainRun_parsed_map]
  · simp only [resolveOut, pyGet, h1, Option.getD_none]
    rfl
  · simp only [resolveOut, pyGet, h2, Option.getD_none]
    rfl
  · simp only [resolveOut, pyGet, h3, Option.getD_none]
    rfl
  · simp only [resolveOut, pyGet, h4, Option.getD_none]
    rfl

/-- C5, witness: a document with only an unrecognized key resolves all four
keys to their defaults. -/
theorem c5_witness :
    mainRun (.parsed (.map [("other", YamlVal.int 1)]))
      "enabledEnvironments" = ⟨["dev,sit"], [], .success⟩ ∧
    mainRun (.parsed (.map [("other", YamlVal.int 1)]))
      "notificationEmail" = ⟨[""], [], .success⟩ ∧
    mainRun (.parsed (.map [("other", YamlVal.int 1)]))
      "slackWebhook" = ⟨[""], [], .success⟩ ∧
    mainRun (.parsed (.map [("other", YamlVal.int 1)]))
      "dryRun" = ⟨["false"], [], .success⟩ :=
  c5_defaults_when_keys_absent [("other", YamlVal.int 1)] rfl rfl rfl rfl

/-- C6 (confirmed).  For every invocation — any argument vector and any
load result for any path — standard output is either nothing (and the
process did not exit 0) or exactly one line whose content is the complete
resolved value (and the process exited 0); more than one line is never
printed. -/
theorem c6_stdout_one_line_or_nothing (world : String → LoadInput)
    (argv : List String) :
    ((pmain world argv).stdout = [] ∧ (pmain world argv).exit ≠ .success) ∨
    ∃ v, (pmain world argv).stdout = [v] ∧
      (pmain world argv).exit = .success := by
  cases argv with
  | nil => exact Or.inl ⟨rfl, fun hcon => Exit.noConfusion hcon⟩
  | cons a t =>
    cases t with
    | nil => exact Or.inl ⟨rfl, fun hcon => Exit.noConfusion hcon⟩
    | cons b t2 =>
      cases t2 with
      | nil => exact Or.inl ⟨rfl, fun hcon => Exit.noConfusion hcon⟩
      | cons c t3 =>
        cases t3 with
        | cons d t4 => exact Or.inl ⟨rfl, fun hcon => Exit.noConfusion hcon⟩
        | nil =>
          have hs : (pmain world [a, b, c]).stdout =
              (resolveOut (load_config (world b)).1 c).stdout := rfl
          have he : (pmain world [a, b, c]).exit =
              (resolveOut (load_config (world b)).1 c).exit := rfl
          rw [hs, he]
          exact resolveOut_shape _ _

/-- C7 (confirmed).  For every load failure (file missing, unreadable, or
malformed YAML), `load_config` prints one diagnostic line to stderr and
returns the empty mapping; the run is never fatal at this stage, and for
every key the program behaves exactly as on an empty document, with the
diagnostic line prepended to stderr. -/
theorem c7_load_failure_soft (msg : String) (key : String) :
    load_config (.readError msg) =
      (.map [], ["Error loading config: " ++ msg]) ∧
    (mainRun (.readError msg) key).stdout =
      (mainRun (.parsed .null) key).stdout ∧
    (mainRun (.readError msg) key).exit =
      (mainRun (.parsed .null) key).exit ∧
    (mainRun (.readError msg) key).stderr =
      ("Error loading config: " ++ msg) ::
        (mainRun (.parsed .null) key).stderr :=
  ⟨rfl, rfl, rfl, rfl⟩

/-- C8 (confirmed).  For every key other than the four recognized names,
the program prints nothing to standard output, prints an empty line to the
error stream (after any load diagnostic), and exits with code 1. -/
theorem c8_unknown_key (input : LoadInput) (key : String)
    (h1 : key ≠ "enabledEnvironments") (h2 : key ≠ "notificationEmail")
    (h3 : key ≠ "slackWebhook") (h4 : key ≠ "dryRun") :
    mainRun input key = ⟨[], (load_config input).2 ++ [""], .failure⟩ := by
  have hr : resolveOut (load_config input).1 key = ⟨[], [""], .failure⟩ := by
    unfold resolveOut
    rw [if_neg h1, if_neg h2, if_neg h3, if_neg h4]
  simp only [mainRun]
  rw [hr]

/-- C8, witness: key `"bogusKey"` on an empty document prints nothing,
emits one empty stderr line, and exits 1. -/
theorem c8_witness :
    mainRun (.parsed .null) "bogusKey" = ⟨[], [""], .failure⟩ := by
  have h := c8_unknown_key (.parsed .null) "bogusKey"
    (by decide) (by decide) (by decide) (by decide)
  simpa using h

/-- C9 (confirmed).  When the file parses to a truthy non-mapping top-level
value, `load_config` returns that value unchanged, and resolving any of the
four recognized keys crashes with an uncaught exception (the `.get`
attribute lookup fails) instead of falling back to the defaults. -/
theorem c9_nonmapping_toplevel_crash (v : YamlVal) (key : String)
    (hm : v.isMap = false) (ht : pyTruthy v = true)
    (hk : key = "enabledEnvironments" ∨ key = "notificationEmail" ∨
      key = "slackWebhook" ∨ key = "dryRun") :
    (load_config (.parsed v)).1 = v ∧
    mainRun (.parsed v) key = ⟨[], [], .crash⟩ := by
  have hload : load_config (.parsed v) = (v, []) := by
    simp [load_config, ht]
  have hget : ∀ k d, pyGet v k d = .error () := by
    intro k d
    cases v <;> simp_all [pyGet, YamlVal.isMap]
  refine ⟨by rw [hload], ?_⟩
  have hr : resolveOut v key = ⟨[], [], .crash⟩ := by
    rcases hk with h | h | h | h <;> subst h <;> simp [resolveOut, hget]
  simp only [mainRun, hload, hr]
  rfl

/-- C9, witness: a top-level list crashes the `dryRun` resolution. -/
theorem c9_witness :
    (load_config (.parsed (.list [.str "a"]))).1 = .list [.str "a"] ∧
    mainRun (.parsed (.list [.str "a"])) "dryRun" = ⟨[], [], .crash⟩ :=
  c9_nonmapping_toplevel_crash (.list [.str "a"]) "dryRun" rfl rfl
    (Or.inr (Or.inr (Or.inr rfl)))

/-- C10 (confirmed).  When the document maps `enabledEnvironments` to a
list containing at least one non-string element, the comma-join raises an
uncaught `TypeError` and the process crashes with no output, instead of
producing the default `"dev,sit"`. -/
theorem c10_envs_nonstring_element_crash (kvs : List (String × YamlVal))
    (xs : List YamlVal) (x : YamlVal)
    (h : List.lookup "enabledEnvironments" kvs = some (.list xs))
    (hx : x ∈ xs) (hs : x.isStr = false) :
    mainRun (.parsed (.map kvs)) "enabledEnvironments" =
      ⟨[], [], .crash⟩ := by
  rw [mainRun_parsed_map]
  simp only [resolveOut, pyGet, h, Option.getD_some, pyJoinCommaVals,
    asStrings_error_of_mem xs x hx hs]
  simp

/-- C10, witness: the list `["a", 1]` crashes the resolution. -/
theorem c10_witness :
    mainRun
      (.parsed (.map
        [("enabledEnvironments", YamlVal.list [.str "a", .int 1])]))
      "enabledEnvironments" = ⟨[], [], .crash⟩ :=
  c10_envs_nonstring_element_crash
    [("enabledEnvironments", YamlVal.list [.str "a", .int 1])]
    [.str "a", .int 1] (.int 1) rfl
    (List.Mem.tail _ (List.Mem.head _)) rfl

end ParseConfig
